import Mathlib

/-!
Verification of the database-command orchestration core of the turso CLI
(`internal/cmd/db.go`): region resolution and validation, the primary-name
cache, and the create / replicate / destroy command logic.

The embedding is shallow and executable.  Remote collaborators (the control
plane listing/creation endpoints, the geolocation probe, the HTTP transport)
are modelled as oracle values supplied in an environment record: each oracle
field holds the outcome the collaborator would produce for the single call the
command makes to it.  The local settings store is modelled as an explicit
`Settings` value threaded through each command; every command returns the
resulting settings, a trace of its externally visible effects, and its
`error`-return value.  A Go runtime panic (failed type assertion, nil pointer
dereference) is modelled by the distinguished outcome `GoErr.panicked`,
kept separate from ordinary returned errors.
-/

namespace TursoCli

/-- A remote database record, as produced by the control-plane listing
(`turso.Database` as used by `db.go`).  The Go field `Type` is renamed
`dbType` because `Type` is a Lean keyword. -/
structure Database where
  ID : String
  Name : String
  dbType : String
  Hostname : String
  Regions : List String
deriving DecidableEq

/-- Locally persisted per-database connection settings
(`settings.DatabaseSettings`): `Name`, `Host`, `Username`, `Password`. -/
structure DatabaseSettings where
  Name : String
  Host : String
  Username : String
  Password : String
deriving DecidableEq

/-- Modelled from the spec: the settings package (`internal/settings`) is not
among the sources; per the spec the persisted local state holds a bearer
token, a name-cache slot whose presence means a cache hit, and a map from
remote database ID to `DatabaseSettings`. -/
structure Settings where
  token : String
  dbNamesCache : Option (List String)
  databases : List (String × DatabaseSettings)
deriving DecidableEq

/-- Modelled from the spec: `GetToken` returns the stored bearer token. -/
def Settings.GetToken (s : Settings) : String := s.token

/-- Modelled from the spec: `GetDbNamesCache` returns the cached name
snapshot if present (`nil` slice in Go is modelled as `none`). -/
def Settings.GetDbNamesCache (s : Settings) : Option (List String) :=
  s.dbNamesCache

/-- Modelled from the spec: `SetDbNamesCache` overwrites the snapshot. -/
def Settings.SetDbNamesCache (s : Settings) (names : List String) : Settings :=
  { s with dbNamesCache := some names }

/-- Modelled from the spec: `InvalidateDbNamesCache` clears the snapshot. -/
def Settings.InvalidateDbNamesCache (s : Settings) : Settings :=
  { s with dbNamesCache := none }

/-- Modelled from the spec: `GetDatabaseSettings` looks the ID up in the
persisted map; a missing entry yields Go's `nil` pointer, modelled `none`. -/
def Settings.GetDatabaseSettings (s : Settings) (id : String) :
    Option DatabaseSettings :=
  match s.databases.find? (fun p => p.1 == id) with
  | some p => some p.2
  | none => none

/-- Modelled from the spec: `AddDatabase` stores settings under the given
remote ID, overwriting any previous entry for that ID. -/
def Settings.AddDatabase (s : Settings) (id : String)
    (ds : DatabaseSettings) : Settings :=
  { s with databases := (id, ds) :: s.databases.filter (fun p => p.1 != id) }

/-- Errors a command can finish with.  Constructors mirror the distinct
`return fmt.Errorf(...)` / `return err` sites of `db.go`; `panicked` stands
for a Go runtime panic (failed type assertion or nil dereference), which is
not a returned error. -/
inductive GoErr where
  | settingsErr
  | nameGenErr
  | invalidRegionCreate (region : String)
  | createDbErr (name : String)
  | instanceCreateErr (name : String)
  | emptyName
  | emptyRegion
  | invalidRegionReplicate
  | notLoggedIn
  | dbLookupErr
  | httpDoErr
  | badStatus (status : Nat)
  | bodyReadErr
  | unmarshalErr
  | panicked
  | promptErr
  | remoteDestroyFailed
deriving DecidableEq

/-- Externally visible effects of a command, in the order they occur. -/
inductive Event where
  | remoteCreateDb (name region image : String)
  | remoteCreateInstance (name password region image : String)
  | httpPost (url body : String)
  | writeSettings (id : String) (ds : DatabaseSettings)
  | invalidateCache
  | remoteDestroyDatabase (name : String)
  | remoteDestroyRegion (name region : String)
  | remoteDestroyInstance (name inst : String)
deriving DecidableEq

/-- Decidable equality of `Except` outcomes, needed to evaluate concrete
command results. -/
instance {ε α : Type} [DecidableEq ε] [DecidableEq α] :
    DecidableEq (Except ε α) := fun a b =>
  match a, b with
  | .error e, .error f =>
    if h : e = f then isTrue (h ▸ rfl)
    else isFalse (fun hc => h (Except.error.inj hc))
  | .ok x, .ok y =>
    if h : x = y then isTrue (h ▸ rfl)
    else isFalse (fun hc => h (Except.ok.inj hc))
  | .error _, .ok _ => isFalse (fun hc => Except.noConfusion hc)
  | .ok _, .error _ => isFalse (fun hc => Except.noConfusion hc)

/-- Outcome of one command invocation: the settings afterwards, the effect
trace, and the command's `error` return. -/
structure CmdOut where
  disk : Settings
  trace : List Event
  result : Except GoErr Unit
deriving DecidableEq

/-! ### Region catalog and region resolution (`getRegionIds`,
`isValidRegion`, `probeClosestRegion`) -/

/-- The fallback region ID used when the closest region cannot be probed
(`FallbackRegionId` in `db.go`). -/
def FallbackRegionId : String := "ams"

/-- `getRegionIds`: the region catalog fetch; any error collapses to the
empty list.  The oracle argument is the outcome of `turso.GetRegions`. -/
def getRegionIds (regionsResult : Except Unit (List String)) : List String :=
  match regionsResult with
  | .error _ => []
  | .ok ids => ids

/-- `isValidRegion`: an empty catalog accepts everything; otherwise the
region must be listed. -/
def isValidRegion (regionsResult : Except Unit (List String))
    (region : String) : Bool :=
  let regionIds := getRegionIds regionsResult
  if regionIds.isEmpty then true
  else regionIds.contains region

/-- `probeClosestRegion`.  The probe oracle is the outcome of the HTTP GET:
outer `.error` is a network failure, inner `.error` a JSON-decode failure,
and the inner `.ok` carries the decoded `Server` field.  The returned `Bool`
records whether the user-visible fallback warning was printed. -/
def probeClosestRegion (regionsResult : Except Unit (List String))
    (probe : Except Unit (Except Unit String)) : String × Bool :=
  match probe with
  | .error _ => (FallbackRegionId, true)
  | .ok (.error _) => (FallbackRegionId, false)
  | .ok (.ok server) =>
    if isValidRegion regionsResult server then (server, false)
    else (FallbackRegionId, false)

/-! ### Database catalog helpers (`extractDatabaseNames`,
`fetchDatabaseNames`, `getDatabase`, `getDatabaseNames`) -/

/-- `extractDatabaseNames`: the names of the `primary`-typed databases. -/
def extractDatabaseNames (databases : List Database) : List String :=
  (databases.filter (fun d => d.dbType == "primary")).map (fun d => d.Name)

/-- `fetchDatabaseNames`: a failed listing collapses to the empty list. -/
def fetchDatabaseNames (listResult : Except Unit (List Database)) :
    List String :=
  match listResult with
  | .error _ => []
  | .ok databases => extractDatabaseNames databases

/-- `getDatabase`: look a database up by name in the live listing; both a
failed listing and an absent name are errors. -/
def getDatabase (listResult : Except Unit (List Database)) (name : String) :
    Except Unit Database :=
  match listResult with
  | .error _ => .error ()
  | .ok databases =>
    match databases.find? (fun d => d.Name == name) with
    | some d => .ok d
    | none => .error ()

/-- `getDatabaseNames`: serve from the cache when possible; on a cache miss
fetch (collapsing fetch failure to `[]`) and store the result.  Returns the
names together with the settings as persisted afterwards; when `ReadSettings`
fails (`readable = false`) nothing is stored. -/
def getDatabaseNames (disk : Settings) (readable : Bool)
    (listResult : Except Unit (List Database)) : List String × Settings :=
  if readable then
    match disk.GetDbNamesCache with
    | some cachedNames => (cachedNames, disk)
    | none =>
      let names := fetchDatabaseNames listResult
      (names, disk.SetDbNamesCache names)
  else (fetchDatabaseNames listResult, disk)

/-! ### JSON values and the replicate response traversal -/

/-- A decoded JSON value (the result of `json.Unmarshal` into
`interface\x7b\x7d`, restricted to the constructors that decoding can
produce). -/
inductive Json where
  | jnull
  | jbool (b : Bool)
  | jnum (n : Int)
  | jstr (s : String)
  | jarr (elems : List Json)
  | jobj (fields : List (String × Json))

/-- Key lookup in a decoded JSON object (Go map indexing; a missing key
yields `nil`, modelled `none`). -/
def lookupJ (fields : List (String × Json)) (k : String) : Option Json :=
  match fields.find? (fun p => p.1 == k) with
  | some p => some p.2
  | none => none

/-- The Go type assertion `v.(map[string]interface\x7b\x7d)` on a decoded
value: anything but an object panics. -/
def asObj (j : Json) : Except GoErr (List (String × Json)) :=
  match j with
  | .jobj fields => .ok fields
  | _ => .error .panicked

/-- The same assertion applied to an indexing result; a missing key (`nil`)
also panics. -/
def asObjOpt (j : Option Json) : Except GoErr (List (String × Json)) :=
  match j with
  | some (.jobj fields) => .ok fields
  | _ => .error .panicked

/-- The Go type assertion `v.(string)` applied to an indexing result. -/
def asStrOpt (j : Option Json) : Except GoErr String :=
  match j with
  | some (.jstr s) => .ok s
  | _ => .error .panicked

/-- The data `replicateCmd` pulls out of the control-plane response: the new
settings key, the host, and the credentials. -/
structure ReplicaInfo where
  dbId : String
  dbHost : String
  username : String
  password : String
deriving DecidableEq

/-- The response traversal of `replicateCmd` (lines 438-453 of `db.go`),
in the source's evaluation order: assert the top level is an object, assert
the `instance` / `database` member is an object, assert `username` and
`password` are strings, then pull the shape-specific id and host.  Every
failed assertion is a runtime panic. -/
def parseReplicateResponse (logical : Bool) (srcHostname : String)
    (j : Json) : Except GoErr ReplicaInfo :=
  match asObj j with
  | .error e => .error e
  | .ok top =>
    match asObjOpt (lookupJ top (if logical then "instance" else "database")) with
    | .error e => .error e
    | .ok m =>
      match asStrOpt (lookupJ top "username") with
      | .error e => .error e
      | .ok username =>
        match asStrOpt (lookupJ top "password") with
        | .error e => .error e
        | .ok password =>
          if logical then
            match asStrOpt (lookupJ m "uuid") with
            | .error e => .error e
            | .ok dbId => .ok ⟨dbId, srcHostname, username, password⟩
          else
            match asStrOpt (lookupJ m "DbId") with
            | .error e => .error e
            | .ok dbId =>
              match asStrOpt (lookupJ m "Hostname") with
              | .error e => .error e
              | .ok dbHost => .ok ⟨dbId, dbHost, username, password⟩

/-- String field of a JSON object, as an `Option` (spec-side helper). -/
def strAt (j : Json) (k : String) : Option String :=
  match j with
  | .jobj fields =>
    match lookupJ fields k with
    | some (.jstr s) => some s
    | _ => none
  | _ => none

/-- Object field of a JSON object, as an `Option` (spec-side helper). -/
def objAt (j : Json) (k : String) : Option Json :=
  match j with
  | .jobj fields =>
    match lookupJ fields k with
    | some (.jobj fields2) => some (.jobj fields2)
    | _ => none
  | _ => none

/-- The fields the spec says response parsing must extract: a `username`, a
`password`, and the shape-specific id/hostname fields (`instance.uuid` with
the source's hostname for `logical` sources; `database.DbId` and
`database.Hostname` otherwise).  `none` when any field is missing or has an
unexpected type.  This definition follows the spec's words, to be compared
with `parseReplicateResponse`, which embeds the source. -/
def responseFieldsSpec (logical : Bool) (srcHostname : String) (j : Json) :
    Option ReplicaInfo :=
  match strAt j "username", strAt j "password" with
  | some u, some p =>
    if logical then
      match objAt j "instance" with
      | some inst =>
        match strAt inst "uuid" with
        | some id => some ⟨id, srcHostname, u, p⟩
        | none => none
      | none => none
    else
      match objAt j "database" with
      | some db =>
        match strAt db "DbId", strAt db "Hostname" with
        | some id, some h => some ⟨id, h, u, p⟩
        | _, _ => none
      | none => none
  | _, _ => none

/-! ### The replicate request (URL dispatch and body interpolation) -/

/-- The request URL of `replicateCmd`: `\x7bhost\x7d/v1/databases`,
overridden to the instance-scoped endpoint for `logical` sources. -/
def replicateUrl (host ty name : String) : String :=
  if ty == "logical" then host ++ "/v2/databases/" ++ name ++ "/instances"
  else host ++ "/v1/databases"

/-- `getHost`: the control-plane base URL, with the environment override
(the argument models `TURSO_API_BASEURL`, empty when unset). -/
def getHost (apiBaseUrl : String) : String :=
  if apiBaseUrl == "" then "https://api.chiseledge.com" else apiBaseUrl

/-- The replicate request body: plain textual interpolation of name, region,
image and the stored password into a JSON template, with no escaping
(line 407 of `db.go`). -/
def replicateReqBody (name region image password : String) : String :=
  "\x7b\"name\": \"" ++ name ++ "\", \"region\": \"" ++ region ++
    "\", \"image\": \"" ++ image ++
    "\", \"type\": \"replica\", \"password\": \"" ++ password ++ "\"\x7d"

/-! ### The three commands -/

/-- Result of `client.Databases.Create`: the new database record plus the
credentials minted for it. -/
structure CreateRes where
  database : Database
  Username : String
  Password : String
deriving DecidableEq

/-- Oracle environment for one `createCmd` invocation. -/
structure CreateEnv where
  settingsReadable : Bool
  nameGen : Except Unit String
  regionsResult : Except Unit (List String)
  probeHttp : Except Unit (Except Unit String)
  createDbResult : Except Unit CreateRes
  createInstanceResult : Except Unit Unit
deriving DecidableEq

/-- `createCmd` (lines 137-203 of `db.go`): read settings, resolve the name
(generating one when absent or empty), validate or probe the region, create
the database, create its first instance, then persist the derived settings
and invalidate the name cache. -/
def createCmd (disk : Settings) (env : CreateEnv) (nameArg : Option String)
    (canary : Bool) (regionArg : String) : CmdOut :=
  if env.settingsReadable then
    match (match nameArg with
           | none => env.nameGen
           | some s => if s == "" then env.nameGen else .ok s) with
    | .error _ => ⟨disk, [], .error .nameGenErr⟩
    | .ok name =>
      if regionArg != "" && !(isValidRegion env.regionsResult regionArg) then
        ⟨disk, [], .error (.invalidRegionCreate regionArg)⟩
      else
        let region :=
          if regionArg == "" then
            (probeClosestRegion env.regionsResult env.probeHttp).1
          else regionArg
        let image := if canary then "canary" else "latest"
        match env.createDbResult with
        | .error _ =>
          ⟨disk, [.remoteCreateDb name region image],
            .error (.createDbErr name)⟩
        | .ok res =>
          let dbSettings : DatabaseSettings :=
            ⟨res.database.Name, res.database.Hostname, res.Username,
              res.Password⟩
          match env.createInstanceResult with
          | .error _ =>
            ⟨disk,
              [.remoteCreateDb name region image,
                .remoteCreateInstance name res.Password region image],
              .error (.instanceCreateErr name)⟩
          | .ok _ =>
            ⟨(disk.AddDatabase res.database.ID dbSettings).InvalidateDbNamesCache,
              [.remoteCreateDb name region image,
                .remoteCreateInstance name res.Password region image,
                .writeSettings res.database.ID dbSettings,
                .invalidateCache],
              .ok ()⟩
  else ⟨disk, [], .error .settingsErr⟩

/-- Body of the replicate HTTP response, after `io.ReadAll`:
either bytes `json.Unmarshal` rejects, or the decoded value. -/
inductive RespBody where
  | invalidJson
  | json (j : Json)

/-- The replicate HTTP response (status and the body-read outcome). -/
structure HttpResp where
  status : Nat
  bodyRead : Except Unit RespBody

/-- Oracle environment for one `replicateCmd` invocation. -/
structure ReplicateEnv where
  settingsReadable : Bool
  listResult : Except Unit (List Database)
  regionsResult : Except Unit (List String)
  apiBaseUrl : String
  httpResult : Except Unit HttpResp

/-- `replicateCmd` (lines 359-469 of `db.go`): read settings, require
non-empty name and region, validate the region, require a token, look the
source database up, dispatch the endpoint on its type, build the request
body from the source's stored password (a missing settings entry is a nil
dereference, hence a panic), send it, check for status 200, decode the body
and traverse it, then persist the new settings keyed by the new ID and
invalidate the name cache. -/
def replicateCmd (disk : Settings) (env : ReplicateEnv)
    (nameArg regionArg : String) (canary : Bool) : CmdOut :=
  if env.settingsReadable then
    if nameArg == "" then ⟨disk, [], .error .emptyName⟩
    else if regionArg == "" then ⟨disk, [], .error .emptyRegion⟩
    else if !(isValidRegion env.regionsResult regionArg) then
      ⟨disk, [], .error .invalidRegionReplicate⟩
    else
      let image := if canary then "canary" else "latest"
      if disk.GetToken == "" then ⟨disk, [], .error .notLoggedIn⟩
      else
        let host := getHost env.apiBaseUrl
        match getDatabase env.listResult nameArg with
        | .error _ => ⟨disk, [], .error .dbLookupErr⟩
        | .ok original =>
          let url := replicateUrl host original.dbType nameArg
          match disk.GetDatabaseSettings original.ID with
          | none => ⟨disk, [], .error .panicked⟩
          | some ds =>
            let body := replicateReqBody nameArg regionArg image ds.Password
            match env.httpResult with
            | .error _ => ⟨disk, [.httpPost url body], .error .httpDoErr⟩
            | .ok resp =>
              if resp.status != 200 then
                ⟨disk, [.httpPost url body], .error (.badStatus resp.status)⟩
              else
                match resp.bodyRead with
                | .error _ =>
                  ⟨disk, [.httpPost url body], .error .bodyReadErr⟩
                | .ok .invalidJson =>
                  ⟨disk, [.httpPost url body], .error .unmarshalErr⟩
                | .ok (.json j) =>
                  match parseReplicateResponse (original.dbType == "logical")
                      original.Hostname j with
                  | .error e => ⟨disk, [.httpPost url body], .error e⟩
                  | .ok info =>
                    let nds : DatabaseSettings :=
                      ⟨"", info.dbHost, info.username, info.password⟩
                    ⟨(disk.AddDatabase info.dbId nds).InvalidateDbNamesCache,
                      [.httpPost url body, .writeSettings info.dbId nds,
                        .invalidateCache],
                      .ok ()⟩
  else ⟨disk, [], .error .settingsErr⟩

/-- Oracle environment for one `destroyCmd` invocation.  The three destroy
helpers are modelled from the spec: they issue one remote call each and
propagate its error; none of them touches local settings. -/
structure DestroyEnv where
  destroyInstanceResult : Except GoErr Unit
  destroyRegionResult : Except GoErr Unit
  destroyDatabaseResult : Except GoErr Unit
  promptResult : Except Unit Bool
deriving DecidableEq

/-- `destroyCmd` (lines 257-291 of `db.go`): dispatch on which optional
target is supplied — instance, region, or (after confirmation unless `--yes`)
the whole database.  The settings are never read or written. -/
def destroyCmd (disk : Settings) (env : DestroyEnv)
    (name instanceFlag regionFlag : String) (yesFlag : Bool) : CmdOut :=
  if instanceFlag != "" then
    ⟨disk, [.remoteDestroyInstance name instanceFlag],
      env.destroyInstanceResult⟩
  else if regionFlag != "" then
    ⟨disk, [.remoteDestroyRegion name regionFlag], env.destroyRegionResult⟩
  else if yesFlag then
    ⟨disk, [.remoteDestroyDatabase name], env.destroyDatabaseResult⟩
  else
    match env.promptResult with
    | .error _ => ⟨disk, [], .error .promptErr⟩
    | .ok false => ⟨disk, [], .ok ()⟩
    | .ok true =>
      ⟨disk, [.remoteDestroyDatabase name], env.destroyDatabaseResult⟩

/-! ### A JSON reader for flat string-valued objects

The replicate request body is supposed to be a JSON object all of whose
member values are strings.  The reader below decides exactly that: it
accepts a body precisely when it is a well-formed JSON object whose values
are all string literals (with the standard escapes), and returns the decoded
members in order.  A body that any JSON parser accepts as the five-field
all-string object is accepted here with the same members, and conversely;
bodies that are malformed, or whose values are not all strings, are
rejected, which is the correct verdict for the property at issue. -/

/-- Opening brace character (written via its code point, as it is data,
not syntax). -/
def obrace : Char := Char.ofNat 123

/-- Closing brace character. -/
def cbrace : Char := Char.ofNat 125

/-- JSON insignificant whitespace. -/
def isWsChar (c : Char) : Bool :=
  [' ', '\n', '\t', '\r'].contains c

/-- Drop leading JSON whitespace. -/
def skipWs : List Char → List Char
  | [] => []
  | c :: rest => if isWsChar c then skipWs rest else c :: rest

/-- The single-character JSON string escapes, as source/decoded pairs
(backspace and form feed by code point). -/
def escPairs : List (Char × Char) :=
  [('"', '"'), ('\\', '\\'), ('/', '/'), ('n', '\n'), ('t', '\t'),
    ('r', '\r'), ('b', Char.ofNat 8), ('f', Char.ofNat 12)]

/-- Decode one escape character via the table. -/
def escChar (e : Char) : Option Char :=
  (escPairs.find? (fun q => q.1 == e)).map (fun q => q.2)

/-- Read the contents of a JSON string literal after its opening quote.
The flag is true immediately after a backslash.  Returns the decoded
contents and the input after the closing quote. -/
def strLitAux : Bool → List Char → Option (List Char × List Char)
  | _, [] => none
  | true, e :: rest =>
    match escChar e with
    | some c =>
      match strLitAux false rest with
      | some (s, r) => some (c :: s, r)
      | none => none
    | none => none
  | false, c :: rest =>
    if c = '"' then some ([], rest)
    else if c = '\\' then strLitAux true rest
    else
      match strLitAux false rest with
      | some (s, r) => some (c :: s, r)
      | none => none

/-- Read a JSON string literal body (after the opening quote). -/
def strLit (cs : List Char) : Option (List Char × List Char) :=
  strLitAux false cs

/-- Read the members of a flat string-valued object, positioned at the start
of a member key (a quote); consumes the closing brace and requires only
whitespace after it.  The fuel bounds the number of members. -/
def flatMembers : Nat → List (String × String) → List Char →
    Option (List (String × String))
  | 0, _, _ => none
  | fuel + 1, acc, cs =>
    match cs with
    | [] => none
    | c :: rest =>
      if c = '"' then
        match strLit rest with
        | none => none
        | some (k, r1) =>
          match skipWs r1 with
          | [] => none
          | c2 :: r2 =>
            if c2 = ':' then
              match skipWs r2 with
              | [] => none
              | c3 :: r3 =>
                if c3 = '"' then
                  match strLit r3 with
                  | none => none
                  | some (v, r4) =>
                    let acc2 := acc ++ [(String.mk k, String.mk v)]
                    match skipWs r4 with
                    | [] => none
                    | c5 :: r5 =>
                      if c5 = cbrace then
                        if (skipWs r5).isEmpty then some acc2 else none
                      else if c5 = ',' then flatMembers fuel acc2 (skipWs r5)
                      else none
                else none
            else none
      else none

/-- Decode a string as a flat string-valued JSON object: `some members`
exactly when the string is a well-formed JSON object (of at most 32 members)
all of whose values are string literals. -/
def parseFlatObj (s : String) : Option (List (String × String)) :=
  match skipWs s.data with
  | [] => none
  | c :: rest =>
    if c = obrace then
      match skipWs rest with
      | [] => none
      | c2 :: r2 =>
        if c2 = cbrace then if (skipWs r2).isEmpty then some [] else none
        else flatMembers 32 [] (c2 :: r2)
    else none

/-- A string free of double quotes and backslashes: interpolating it into a
JSON template needs no escaping. -/
def cleanStr (s : String) : Bool :=
  s.data.all (fun c => c != '"' && c != '\\')

/-! ### Concrete fixtures used to evaluate the commands on closed inputs -/

/-- A local settings fixture: logged in, empty cache, one stored database. -/
def exDisk : Settings :=
  ⟨"tok", none, [("id1", ⟨"db1", "h1", "u1", "pw"⟩)]⟩

/-- A `logical`-typed source database fixture. -/
def exLogicalDb : Database := ⟨"id1", "db1", "logical", "h1", ["ams"]⟩

/-- A `primary`-typed source database fixture. -/
def exPrimaryDb : Database := ⟨"id1", "db1", "primary", "h1", ["ams"]⟩

/-- A well-formed logical-shape replicate response body. -/
def exGoodLogicalBody : Json :=
  .jobj [("instance", .jobj [("uuid", .jstr "i1")]),
    ("username", .jstr "u2"), ("password", .jstr "p2")]

/-- A logical-shape replicate response body with no `username` member. -/
def exNoUserBody : Json :=
  .jobj [("instance", .jobj [("uuid", .jstr "i1")]),
    ("password", .jstr "p2")]

/-- A well-formed primary-shape replicate response body. -/
def exGoodPrimaryBody : Json :=
  .jobj [("database", .jobj [("DbId", .jstr "id9"), ("Hostname", .jstr "h9")]),
    ("username", .jstr "u2"), ("password", .jstr "p2")]

/-- A replicate oracle environment fixture parameterised by the source
database listing and the HTTP response. -/
def exReplicateEnv (dbs : List Database) (resp : HttpResp) : ReplicateEnv :=
  ⟨true, .ok dbs, .ok ["ams", "fra"], "", .ok resp⟩

/-- A create oracle environment fixture parameterised by the remote create
outcomes. -/
def exCreateEnv (dbRes : Except Unit CreateRes)
    (instRes : Except Unit Unit) : CreateEnv :=
  ⟨true, .ok "gen-name", .ok ["ams", "fra"], .ok (.ok "ams"), dbRes, instRes⟩

/-- The database record the create fixture's control plane returns. -/
def exCreateRes : CreateRes := ⟨⟨"newid", "db1", "primary", "hnew", ["fra"]⟩, "u2", "p2"⟩

end TursoCli

namespace TursoCli

theorem mkData (s : String) : String.mk s.data = s := rfl

theorem cleanStr_forall {s : String} (h : cleanStr s = true) :
    ∀ c ∈ s.data, c ≠ '"' ∧ c ≠ '\\' := by
  intro c hc
  have h2 := List.all_eq_true.mp h c hc
  simp only [Bool.and_eq_true, bne_iff_ne, ne_eq] at h2
  exact h2

theorem strLitAux_clean (l rest : List Char)
    (h : ∀ c ∈ l, c ≠ '"' ∧ c ≠ '\\') :
    strLitAux false (l ++ '"' :: rest) = some (l, rest) := by
  induction l with
  | nil => simp [strLitAux]
  | cons c l ih =>
    have hc := h c (by simp)
    simp [strLitAux, hc.1, hc.2, ih (fun c hc => h c (by simp [hc]))]

theorem skipWs_cons_nws (c : Char) (l : List Char) (h : isWsChar c = false) :
    skipWs (c :: l) = c :: l := by
  simp [skipWs, h]

theorem flatMembers_step (f : Nat) (acc : List (String × String))
    (k : String) (v rest : List Char)
    (hk : ∀ c ∈ k.data, c ≠ '"' ∧ c ≠ '\\')
    (hv : ∀ c ∈ v, c ≠ '"' ∧ c ≠ '\\') :
    flatMembers (f + 1) acc
      ('"' :: (k.data ++ '"' :: ':' :: ' ' :: '"' ::
        (v ++ '"' :: ',' :: ' ' :: '"' :: rest)))
      = flatMembers f (acc ++ [(k, String.mk v)]) ('"' :: rest) := by
  have h1 := strLitAux_clean k.data (':' :: ' ' :: '"' ::
    (v ++ '"' :: ',' :: ' ' :: '"' :: rest)) hk
  have h2 := strLitAux_clean v (',' :: ' ' :: '"' :: rest) hv
  simp [flatMembers, strLit, h1, h2, skipWs, isWsChar, mkData,
    show ¬(',' = cbrace) by decide]

theorem flatMembers_last (f : Nat) (acc : List (String × String))
    (k : String) (v : List Char)
    (hk : ∀ c ∈ k.data, c ≠ '"' ∧ c ≠ '\\')
    (hv : ∀ c ∈ v, c ≠ '"' ∧ c ≠ '\\') :
    flatMembers (f + 1) acc
      ('"' :: (k.data ++ '"' :: ':' :: ' ' :: '"' :: (v ++ ['"', cbrace])))
      = some (acc ++ [(k, String.mk v)]) := by
  have h1 := strLitAux_clean k.data (':' :: ' ' :: '"' :: (v ++ ['"', cbrace])) hk
  have h2 := strLitAux_clean v [cbrace] hv
  simp [flatMembers, strLit, h1, h2, skipWs, isWsChar, mkData,
    show ¬(cbrace = ' ') by decide, show ¬(cbrace = '\n') by decide,
    show ¬(cbrace = '\t') by decide, show ¬(cbrace = '\r') by decide]

theorem reqBody_data (n r i p : String) :
    (replicateReqBody n r i p).data =
      obrace :: '"' :: (("name" : String).data ++ '"' :: ':' :: ' ' :: '"' ::
        (n.data ++ '"' :: ',' :: ' ' :: '"' ::
          (("region" : String).data ++ '"' :: ':' :: ' ' :: '"' ::
            (r.data ++ '"' :: ',' :: ' ' :: '"' ::
              (("image" : String).data ++ '"' :: ':' :: ' ' :: '"' ::
                (i.data ++ '"' :: ',' :: ' ' :: '"' ::
                  (("type" : String).data ++ '"' :: ':' :: ' ' :: '"' ::
                    (("replica" : String).data ++ '"' :: ',' :: ' ' :: '"' ::
                      (("password" : String).data ++ '"' :: ':' :: ' ' :: '"' ::
                        (p.data ++ ['"', cbrace])))))))))) := by
  have l1 : (("\x7b\"name\": \"" : String)).data =
      obrace :: '"' :: (("name" : String).data ++ ['"', ':', ' ', '"']) := by decide
  have l2 : (("\", \"region\": \"" : String)).data =
      '"' :: ',' :: ' ' :: '"' :: (("region" : String).data ++ ['"', ':', ' ', '"']) := by decide
  have l3 : (("\", \"image\": \"" : String)).data =
      '"' :: ',' :: ' ' :: '"' :: (("image" : String).data ++ ['"', ':', ' ', '"']) := by decide
  have l4 : (("\", \"type\": \"replica\", \"password\": \"" : String)).data =
      '"' :: ',' :: ' ' :: '"' :: (("type" : String).data ++ '"' :: ':' :: ' ' :: '"' ::
        (("replica" : String).data ++ '"' :: ',' :: ' ' :: '"' ::
          (("password" : String).data ++ ['"', ':', ' ', '"']))) := by decide
  have l5 : (("\"\x7d" : String)).data = ['"', cbrace] := by decide
  simp [replicateReqBody, String.data_append, l1, l2, l3, l4, l5]
  exact ⟨by decide, by decide⟩

theorem parseFlatObj_open (s : String) (rest : List Char)
    (hs : s.data = obrace :: '"' :: rest) :
    parseFlatObj s = flatMembers 32 [] ('"' :: rest) := by
  rw [parseFlatObj, hs]
  rw [skipWs_cons_nws _ _ (by decide)]
  simp [skipWs_cons_nws _ _ (show isWsChar '"' = false by decide),
    show ¬('"' = cbrace) by decide]

theorem reqBody_wellFormed (n r i p : String)
    (hn : cleanStr n = true) (hr : cleanStr r = true)
    (hi : cleanStr i = true) (hp : cleanStr p = true) :
    parseFlatObj (replicateReqBody n r i p) =
      some [("name", n), ("region", r), ("image", i),
        ("type", "replica"), ("password", p)] := by
  have hn2 := cleanStr_forall hn
  have hr2 := cleanStr_forall hr
  have hi2 := cleanStr_forall hi
  have hp2 := cleanStr_forall hp
  rw [parseFlatObj_open (replicateReqBody n r i p) _ (reqBody_data n r i p)]
  rw [show (32 : Nat) = 31 + 1 from rfl,
    flatMembers_step 31 [] "name" n.data _ (by decide) hn2]
  rw [show (31 : Nat) = 30 + 1 from rfl,
    flatMembers_step 30 _ "region" r.data _ (by decide) hr2]
  rw [show (30 : Nat) = 29 + 1 from rfl,
    flatMembers_step 29 _ "image" i.data _ (by decide) hi2]
  rw [show (29 : Nat) = 28 + 1 from rfl,
    flatMembers_step 28 _ "type" ("replica" : String).data _ (by decide) (by decide)]
  rw [show (28 : Nat) = 27 + 1 from rfl,
    flatMembers_last 27 _ "password" p.data (by decide) hp2]
  simp [mkData]

theorem strAt_spec (fields : List (String × Json)) (k : String) :
    (∃ s, lookupJ fields k = some (.jstr s) ∧
      asStrOpt (lookupJ fields k) = .ok s ∧
      strAt (.jobj fields) k = some s) ∨
    (asStrOpt (lookupJ fields k) = .error .panicked ∧
      strAt (.jobj fields) k = none) := by
  rcases h : lookupJ fields k with _ | x
  · right
    simp [asStrOpt, strAt, h]
  · cases x <;>
      first
        | (left; exact ⟨_, rfl, by simp [asStrOpt], by simp [strAt, h]⟩)
        | (right; exact ⟨by simp [asStrOpt], by simp [strAt, h]⟩)

theorem objAt_spec (fields : List (String × Json)) (k : String) :
    (∃ m, lookupJ fields k = some (.jobj m) ∧
      asObjOpt (lookupJ fields k) = .ok m ∧
      objAt (.jobj fields) k = some (.jobj m)) ∨
    (asObjOpt (lookupJ fields k) = .error .panicked ∧
      objAt (.jobj fields) k = none) := by
  rcases h : lookupJ fields k with _ | x
  · right
    simp [asObjOpt, objAt, h]
  · cases x <;>
      first
        | (left; exact ⟨_, rfl, by simp [asObjOpt], by simp [objAt, h]⟩)
        | (right; exact ⟨by simp [asObjOpt], by simp [objAt, h]⟩)

theorem parseRep_eq_spec (logical : Bool) (hn : String) (j : Json) :
    parseReplicateResponse logical hn j =
      (match responseFieldsSpec logical hn j with
       | some info => .ok info
       | none => .error .panicked) := by
  cases j with
  | jobj fields =>
    cases logical with
    | true =>
      rcases objAt_spec fields "instance" with ⟨m, hi1, hi2, hi3⟩ | ⟨hi2, hi3⟩ <;>
        rcases strAt_spec fields "username" with ⟨u, hu1, hu2, hu3⟩ | ⟨hu2, hu3⟩ <;>
        rcases strAt_spec fields "password" with ⟨p, hp1, hp2, hp3⟩ | ⟨hp2, hp3⟩ <;>
        simp [parseReplicateResponse, responseFieldsSpec, asObj,
          hi2, hi3, hu2, hu3, hp2, hp3] <;>
        rcases strAt_spec m "uuid" with ⟨idv, hd1, hd2, hd3⟩ | ⟨hd2, hd3⟩ <;>
        simp [hd2, hd3]
    | false =>
      rcases objAt_spec fields "database" with ⟨m, hi1, hi2, hi3⟩ | ⟨hi2, hi3⟩ <;>
        rcases strAt_spec fields "username" with ⟨u, hu1, hu2, hu3⟩ | ⟨hu2, hu3⟩ <;>
        rcases strAt_spec fields "password" with ⟨p, hp1, hp2, hp3⟩ | ⟨hp2, hp3⟩ <;>
        simp [parseReplicateResponse, responseFieldsSpec, asObj,
          hi2, hi3, hu2, hu3, hp2, hp3] <;>
        rcases strAt_spec m "DbId" with ⟨idv, hd1, hd2, hd3⟩ | ⟨hd2, hd3⟩ <;>
        rcases strAt_spec m "Hostname" with ⟨hv, hh1, hh2, hh3⟩ | ⟨hh2, hh3⟩ <;>
        simp [hd2, hd3, hh2, hh3]
  | jnull => simp [parseReplicateResponse, responseFieldsSpec, asObj, strAt]
  | jbool b => simp [parseReplicateResponse, responseFieldsSpec, asObj, strAt]
  | jnum n => simp [parseReplicateResponse, responseFieldsSpec, asObj, strAt]
  | jstr s => simp [parseReplicateResponse, responseFieldsSpec, asObj, strAt]
  | jarr es => simp [parseReplicateResponse, responseFieldsSpec, asObj, strAt]

theorem parse_ok_spec (logical : Bool) (hn : String) (j : Json)
    (info : ReplicaInfo)
    (h : parseReplicateResponse logical hn j = .ok info) :
    responseFieldsSpec logical hn j = some info := by
  have hp := parseRep_eq_spec logical hn j
  rw [h] at hp
  rcases hsp : responseFieldsSpec logical hn j with _ | i2 <;> rw [hsp] at hp
  · simp at hp
  · simp at hp
    rw [hp]

theorem spec_logical_fields (hn : String) (j : Json) (info : ReplicaInfo)
    (h : responseFieldsSpec true hn j = some info) :
    info.dbHost = hn ∧
    (∀ m u, objAt j "instance" = some m → strAt m "uuid" = some u →
      info.dbId = u) := by
  rcases hu : strAt j "username" with _ | u
  · simp [responseFieldsSpec, hu] at h
  rcases hp : strAt j "password" with _ | p
  · simp [responseFieldsSpec, hu, hp] at h
  rcases hi : objAt j "instance" with _ | m
  · simp [responseFieldsSpec, hu, hp, hi] at h
  rcases hid : strAt m "uuid" with _ | u2
  · simp [responseFieldsSpec, hu, hp, hi, hid] at h
  have h2 : some (⟨u2, hn, u, p⟩ : ReplicaInfo) = some info := by
    rw [← h]
    simp [responseFieldsSpec, hu, hp, hi, hid]
  injection h2 with h2
  subst h2
  refine ⟨rfl, fun m2 u3 h1 hh2 => ?_⟩
  injection h1 with h1
  subst h1
  rw [hid] at hh2
  injection hh2 with hh2

theorem spec_primary_fields (hn : String) (j : Json) (info : ReplicaInfo)
    (h : responseFieldsSpec false hn j = some info) :
    ∀ m idv hv, objAt j "database" = some m → strAt m "DbId" = some idv →
      strAt m "Hostname" = some hv → info.dbId = idv ∧ info.dbHost = hv := by
  rcases hu : strAt j "username" with _ | u
  · simp [responseFieldsSpec, hu] at h
  rcases hp : strAt j "password" with _ | p
  · simp [responseFieldsSpec, hu, hp] at h
  rcases hi : objAt j "database" with _ | m
  · simp [responseFieldsSpec, hu, hp, hi] at h
  rcases hid : strAt m "DbId" with _ | idv2
  · simp [responseFieldsSpec, hu, hp, hi, hid] at h
  rcases hih : strAt m "Hostname" with _ | hv2
  · simp [responseFieldsSpec, hu, hp, hi, hid, hih] at h
  have h2 : some (⟨idv2, hv2, u, p⟩ : ReplicaInfo) = some info := by
    rw [← h]
    simp [responseFieldsSpec, hu, hp, hi, hid, hih]
  injection h2 with h2
  subst h2
  intro m2 idv3 hv3 h1 hh2 hh3
  injection h1 with h1
  subst h1
  rw [hid] at hh2
  injection hh2 with hh2
  rw [hih] at hh3
  injection hh3 with hh3
  exact ⟨hh2, hh3⟩

theorem createCmd_ok_disk (disk : Settings) (env : CreateEnv)
    (nameArg : Option String) (canary : Bool) (region : String) :
    (createCmd disk env nameArg canary region).result ≠ .ok () ∨
    (createCmd disk env nameArg canary region).disk.dbNamesCache = none := by
  unfold createCmd
  repeat' split
  all_goals simp [Settings.InvalidateDbNamesCache]

theorem replicateCmd_ok_disk (disk : Settings) (env : ReplicateEnv)
    (name region : String) (canary : Bool) :
    (replicateCmd disk env name region canary).result ≠ .ok () ∨
    (replicateCmd disk env name region canary).disk.dbNamesCache = none := by
  unfold replicateCmd
  repeat' split
  all_goals simp [Settings.InvalidateDbNamesCache]

end TursoCli

namespace TursoCli

theorem isValidRegion_false (rres : Except Unit (List String)) (region : String)
    (h1 : getRegionIds rres ≠ []) (h2 : region ∉ getRegionIds rres) :
    isValidRegion rres region = false := by
  simp [isValidRegion, h1, h2, List.isEmpty_iff]

/-- C4, amended: on an empty requested region the probe fallback always
yields the fixed default region `ams` and never fails, but the user-visible
warning is printed only on network failure; a JSON-decode failure and an
invalid probed region fall back silently. -/
theorem probe_fallback_behavior :
    (∀ rres, probeClosestRegion rres (.error ()) = (FallbackRegionId, true)) ∧
    (∀ rres, probeClosestRegion rres (.ok (.error ())) = (FallbackRegionId, false)) ∧
    (∀ rres s, isValidRegion rres s = false →
      probeClosestRegion rres (.ok (.ok s)) = (FallbackRegionId, false)) := by
  refine ⟨fun rres => rfl, fun rres => rfl, fun rres s h => ?_⟩
  simp [probeClosestRegion, h]

/-- C4, counterexample to the claim as stated: a JSON-decode failure falls
back to `ams` with no user-visible warning (second component `false`),
though the claim requires a warning in every probe-failure mode. -/
theorem probe_decode_silent_fallback :
    probeClosestRegion (.ok ["ams"]) (.ok (.error ())) =
      (FallbackRegionId, false) := rfl

/-- C4 witness: the amended theorem applied at a concrete invalid probed
region. -/
theorem probe_fallback_behavior_wit :
    isValidRegion (.ok ["ams"]) "xxx" = false ∧
    probeClosestRegion (.ok ["ams"]) (.ok (.ok "xxx")) =
      (FallbackRegionId, false) :=
  ⟨by decide, probe_fallback_behavior.2.2 (.ok ["ams"]) "xxx" (by decide)⟩

/-- C7: a requested region is accepted whenever the region catalog is empty
(including when its fetch failed), and whenever the non-empty catalog lists
it; when the catalog is non-empty and does not list the (non-empty)
requested region, both `createCmd` and `replicateCmd` fail with their
invalid-region error. -/
theorem region_validation :
    (∀ rres region, getRegionIds rres = [] →
      isValidRegion rres region = true) ∧
    (∀ rres region, region ∈ getRegionIds rres →
      isValidRegion rres region = true) ∧
    (∀ disk env name canary region, env.settingsReadable = true →
      name ≠ "" → region ≠ "" → getRegionIds env.regionsResult ≠ [] →
      region ∉ getRegionIds env.regionsResult →
      (createCmd disk env (some name) canary region).result =
        .error (.invalidRegionCreate region)) ∧
    (∀ disk env name region canary, env.settingsReadable = true →
      name ≠ "" → region ≠ "" → getRegionIds env.regionsResult ≠ [] →
      region ∉ getRegionIds env.regionsResult →
      (replicateCmd disk env name region canary).result =
        .error .invalidRegionReplicate) := by
  refine ⟨fun rres region h => by simp [isValidRegion, h],
    fun rres region h => ?_, fun disk env name canary region h1 h2 h3 h4 h5 => ?_,
    fun disk env name region canary h1 h2 h3 h4 h5 => ?_⟩
  · have : ¬(getRegionIds rres).isEmpty := by
      simp [List.isEmpty_iff]
      exact List.ne_nil_of_mem h
    simp [isValidRegion, this, h]
  · have hv := isValidRegion_false env.regionsResult region h4 h5
    simp [createCmd, h1, h2, h3, hv]
  · have hv := isValidRegion_false env.regionsResult region h4 h5
    simp [replicateCmd, h1, h2, h3, hv]

/-- C7 witness: the theorem applied at concrete inputs. -/
theorem region_validation_wit :
    isValidRegion (.error ()) "anything" = true ∧
    isValidRegion (.ok ["ams", "fra"]) "fra" = true ∧
    (createCmd exDisk ⟨true, .ok "g", .ok ["ams"], .ok (.ok "ams"), .error (), .error ()⟩
      (some "db1") false "xxx").result = .error (.invalidRegionCreate "xxx") ∧
    (replicateCmd exDisk ⟨true, .ok [exLogicalDb], .ok ["ams"], "", .error ()⟩
      "db1" "xxx" false).result = .error .invalidRegionReplicate :=
  ⟨region_validation.1 (.error ()) "anything" rfl,
    region_validation.2.1 (.ok ["ams", "fra"]) "fra" (by decide),
    region_validation.2.2.1 exDisk _ "db1" false "xxx" rfl (by decide) (by decide)
      (by decide) (by decide),
    region_validation.2.2.2 exDisk _ "db1" "xxx" false rfl (by decide) (by decide)
      (by decide) (by decide)⟩

/-- C6, amended: once the replicate request has been sent and a response
received, the command fails with the status-carrying error exactly when the
HTTP status differs from 200; with status 200 it proceeds to response
parsing (so a non-200 2xx status such as 201 is also rejected). -/
theorem replicate_status_check :
    ∀ disk env name region canary orig ds resp,
      env.settingsReadable = true → name ≠ "" → region ≠ "" →
      isValidRegion env.regionsResult region = true →
      disk.GetToken ≠ "" →
      getDatabase env.listResult name = .ok orig →
      disk.GetDatabaseSettings orig.ID = some ds →
      env.httpResult = .ok resp →
      ((resp.status ≠ 200 →
        (replicateCmd disk env name region canary).result =
          .error (.badStatus resp.status)) ∧
       (resp.status = 200 → ∀ s,
        (replicateCmd disk env name region canary).result ≠
          .error (.badStatus s))) := by
  intro disk env name region canary orig ds resp h1 h2 h3 h4 h5 h6 h7 h8
  constructor
  · intro h9
    simp [replicateCmd, h1, h2, h3, h4, h5, h6, h7, h8, h9]
  · intro h9 s
    rcases hb : resp.bodyRead with _ | b
    · simp [replicateCmd, h1, h2, h3, h4, h5, h6, h7, h8, h9, hb]
    · cases b with
      | invalidJson =>
        simp [replicateCmd, h1, h2, h3, h4, h5, h6, h7, h8, h9, hb]
      | json j =>
        have hp := parseRep_eq_spec (orig.dbType == "logical") orig.Hostname j
        rcases hsp : responseFieldsSpec (orig.dbType == "logical")
            orig.Hostname j with _ | info <;>
          rw [hsp] at hp <;>
          simp [replicateCmd, h1, h2, h3, h4, h5, h6, h7, h8, h9, hb, hp]

/-- C6, counterexample to the claim as stated: a 201 response with a fully
well-formed body is rejected with the status error instead of proceeding to
response parsing. -/
theorem replicate_status_201_rejected :
    (replicateCmd exDisk
      (exReplicateEnv [exLogicalDb] ⟨201, .ok (.json exGoodLogicalBody)⟩)
      "db1" "fra" false).result = .error (.badStatus 201) := rfl

/-- C6 witness: the amended theorem applied at a concrete 201 response. -/
theorem replicate_status_check_wit :
    (201 : Nat) ≠ 200 ∧
    (replicateCmd exDisk
      (exReplicateEnv [exLogicalDb] ⟨201, .ok (.json exGoodLogicalBody)⟩)
      "db1" "fra" false).result = .error (.badStatus 201) :=
  ⟨by decide,
    (replicate_status_check exDisk
      (exReplicateEnv [exLogicalDb] ⟨201, .ok (.json exGoodLogicalBody)⟩)
      "db1" "fra" false exLogicalDb ⟨"db1", "h1", "u1", "pw"⟩
      ⟨201, .ok (.json exGoodLogicalBody)⟩ rfl (by decide) (by decide)
      (by decide) (by decide) rfl rfl rfl).1 (by decide)⟩

/-- C9: replicate reads the source credential from the local settings entry
for the source database's remote ID without an existence check; when the
entry is absent the access dereferences a nil pointer — a panic, before any
request is issued — rather than returning an error. -/
theorem replicate_missing_settings_panics :
    ∀ disk env name region canary orig,
      env.settingsReadable = true → name ≠ "" → region ≠ "" →
      isValidRegion env.regionsResult region = true →
      disk.GetToken ≠ "" →
      getDatabase env.listResult name = .ok orig →
      disk.GetDatabaseSettings orig.ID = none →
      (replicateCmd disk env name region canary).result = .error .panicked ∧
      (replicateCmd disk env name region canary).trace = [] := by
  intro disk env name region canary orig h1 h2 h3 h4 h5 h6 h7
  constructor <;> simp [replicateCmd, h1, h2, h3, h4, h5, h6, h7]

/-- C9 witness: a settings store with no entry for the source database. -/
theorem replicate_missing_settings_panics_wit :
    (Settings.GetDatabaseSettings ⟨"tok", none, []⟩ exLogicalDb.ID = none) ∧
    (replicateCmd ⟨"tok", none, []⟩
      (exReplicateEnv [exLogicalDb] ⟨200, .ok (.json exGoodLogicalBody)⟩)
      "db1" "fra" false).result = .error .panicked :=
  ⟨rfl,
    (replicate_missing_settings_panics ⟨"tok", none, []⟩
      (exReplicateEnv [exLogicalDb] ⟨200, .ok (.json exGoodLogicalBody)⟩)
      "db1" "fra" false exLogicalDb rfl (by decide) (by decide) (by decide)
      (by decide) rfl rfl).1⟩

/-- C3, amended: response parsing extracts the username, the password and
the shape-specific id/hostname fields exactly when all of them are present
with the expected types; any missing or mistyped field makes the traversal
panic (abnormal termination via a failed type assertion), not return a
MalformedResponse error and not fall back to a default. -/
theorem replicate_parse_total :
    ∀ logical hn j,
      parseReplicateResponse logical hn j =
        (match responseFieldsSpec logical hn j with
         | some info => .ok info
         | none => .error .panicked) :=
  parseRep_eq_spec

/-- C3, counterexample to the claim as stated: a 200 response whose body
lacks the `username` member makes the command panic (`GoErr.panicked`
models the Go runtime panic) instead of returning a MalformedResponse
error. -/
theorem replicate_missing_field_panics :
    (replicateCmd exDisk
      (exReplicateEnv [exLogicalDb] ⟨200, .ok (.json exNoUserBody)⟩)
      "db1" "fra" false).result = .error .panicked := rfl

/-- C1: replicate shape dispatch.  For a source database of type `logical`
the request targets `\x7bhost\x7d/v2/databases/\x7bname\x7d/instances`, the
new settings key is the response instance object's `uuid`, and the stored
host is the source database's hostname unchanged; for every other type the
request targets `\x7bhost\x7d/v1/databases` and the response database
object supplies both the new id (`DbId`) and the new hostname. -/
theorem replicate_shape_dispatch :
    ∀ disk env name region canary orig ds j info,
      env.settingsReadable = true → name ≠ "" → region ≠ "" →
      isValidRegion env.regionsResult region = true →
      disk.GetToken ≠ "" →
      getDatabase env.listResult name = .ok orig →
      disk.GetDatabaseSettings orig.ID = some ds →
      env.httpResult = .ok ⟨200, .ok (.json j)⟩ →
      parseReplicateResponse (orig.dbType == "logical") orig.Hostname j =
        .ok info →
      ((replicateCmd disk env name region canary).result = .ok () ∧
       (replicateCmd disk env name region canary).disk =
         (disk.AddDatabase info.dbId
           ⟨"", info.dbHost, info.username, info.password⟩).InvalidateDbNamesCache ∧
       (replicateCmd disk env name region canary).trace =
         [.httpPost (replicateUrl (getHost env.apiBaseUrl) orig.dbType name)
             (replicateReqBody name region
               (if canary then "canary" else "latest") ds.Password),
           .writeSettings info.dbId ⟨"", info.dbHost, info.username, info.password⟩,
           .invalidateCache] ∧
       (orig.dbType = "logical" →
         replicateUrl (getHost env.apiBaseUrl) orig.dbType name =
           getHost env.apiBaseUrl ++ "/v2/databases/" ++ name ++ "/instances" ∧
         info.dbHost = orig.Hostname ∧
         (∀ m u, objAt j "instance" = some m → strAt m "uuid" = some u →
           info.dbId = u)) ∧
       (orig.dbType ≠ "logical" →
         replicateUrl (getHost env.apiBaseUrl) orig.dbType name =
           getHost env.apiBaseUrl ++ "/v1/databases" ∧
         (∀ m idv hv, objAt j "database" = some m →
           strAt m "DbId" = some idv → strAt m "Hostname" = some hv →
           info.dbId = idv ∧ info.dbHost = hv))) := by
  intro disk env name region canary orig ds j info h1 h2 h3 h4 h5 h6 h7 h8 h9
  refine ⟨?_, ?_, ?_, fun hL => ?_, fun hL => ?_⟩
  · simp [replicateCmd, h1, h2, h3, h4, h5, h6, h7, h8, h9]
  · simp [replicateCmd, h1, h2, h3, h4, h5, h6, h7, h8, h9]
  · simp [replicateCmd, h1, h2, h3, h4, h5, h6, h7, h8, h9]
  · have hLb : (orig.dbType == "logical") = true := by simp [hL]
    rw [hLb] at h9
    have hf := spec_logical_fields orig.Hostname j info
      (parse_ok_spec true orig.Hostname j info h9)
    exact ⟨by simp [replicateUrl, hL], hf.1, hf.2⟩
  · have hLb : (orig.dbType == "logical") = false := by simp [hL]
    rw [hLb] at h9
    exact ⟨by simp [replicateUrl, hLb],
      spec_primary_fields orig.Hostname j info
        (parse_ok_spec false orig.Hostname j info h9)⟩

/-- C1 witness: a concrete logical-source replication. -/
theorem replicate_shape_dispatch_wit :
    (replicateCmd exDisk
      (exReplicateEnv [exLogicalDb] ⟨200, .ok (.json exGoodLogicalBody)⟩)
      "db1" "fra" false).result = .ok () ∧
    (replicateCmd exDisk
      (exReplicateEnv [exLogicalDb] ⟨200, .ok (.json exGoodLogicalBody)⟩)
      "db1" "fra" false).disk =
      (exDisk.AddDatabase "i1" ⟨"", "h1", "u2", "p2"⟩).InvalidateDbNamesCache :=
  have h := replicate_shape_dispatch exDisk
    (exReplicateEnv [exLogicalDb] ⟨200, .ok (.json exGoodLogicalBody)⟩)
    "db1" "fra" false exLogicalDb ⟨"db1", "h1", "u1", "pw"⟩
    exGoodLogicalBody ⟨"i1", "h1", "u2", "p2"⟩ rfl (by decide) (by decide)
    (by decide) (by decide) rfl rfl rfl rfl
  ⟨h.1, h.2.1⟩

/-- C5: create performs its side effects in the order remote database
create, remote instance create, local settings write, cache invalidation; a
failure at any step aborts the rest; an instance-creation failure after a
successful database creation surfaces an error naming the database, with no
rollback call and no local settings or cache modification. -/
theorem create_effect_order :
    ∀ disk env name canary region,
      env.settingsReadable = true → name ≠ "" → region ≠ "" →
      isValidRegion env.regionsResult region = true →
      ((env.createDbResult = .error () →
        (createCmd disk env (some name) canary region).result =
          .error (.createDbErr name) ∧
        (createCmd disk env (some name) canary region).trace =
          [.remoteCreateDb name region (if canary then "canary" else "latest")] ∧
        (createCmd disk env (some name) canary region).disk = disk) ∧
       (∀ res, env.createDbResult = .ok res →
        env.createInstanceResult = .error () →
        (createCmd disk env (some name) canary region).result =
          .error (.instanceCreateErr name) ∧
        (createCmd disk env (some name) canary region).trace =
          [.remoteCreateDb name region (if canary then "canary" else "latest"),
           .remoteCreateInstance name res.Password region
             (if canary then "canary" else "latest")] ∧
        (createCmd disk env (some name) canary region).disk = disk) ∧
       (∀ res, env.createDbResult = .ok res →
        env.createInstanceResult = .ok () →
        (createCmd disk env (some name) canary region).result = .ok () ∧
        (createCmd disk env (some name) canary region).trace =
          [.remoteCreateDb name region (if canary then "canary" else "latest"),
           .remoteCreateInstance name res.Password region
             (if canary then "canary" else "latest"),
           .writeSettings res.database.ID
             ⟨res.database.Name, res.database.Hostname, res.Username,
               res.Password⟩,
           .invalidateCache] ∧
        (createCmd disk env (some name) canary region).disk =
          (disk.AddDatabase res.database.ID
            ⟨res.database.Name, res.database.Hostname, res.Username,
              res.Password⟩).InvalidateDbNamesCache)) := by
  intro disk env name canary region h1 h2 h3 h4
  refine ⟨fun hc => ?_, fun res hc hi => ?_, fun res hc hi => ?_⟩
  · simp [createCmd, h1, h2, h3, h4, hc]
  · simp [createCmd, h1, h2, h3, h4, hc, hi]
  · simp [createCmd, h1, h2, h3, h4, hc, hi]

/-- C5 witness: instance creation fails after database creation succeeded. -/
theorem create_effect_order_wit :
    (createCmd exDisk (exCreateEnv (.ok exCreateRes) (.error ()))
      (some "db1") false "fra").result = .error (.instanceCreateErr "db1") ∧
    (createCmd exDisk (exCreateEnv (.ok exCreateRes) (.error ()))
      (some "db1") false "fra").trace =
      [.remoteCreateDb "db1" "fra" "latest",
       .remoteCreateInstance "db1" "p2" "fra" "latest"] ∧
    (createCmd exDisk (exCreateEnv (.ok exCreateRes) (.error ()))
      (some "db1") false "fra").disk = exDisk :=
  (create_effect_order exDisk (exCreateEnv (.ok exCreateRes) (.error ()))
    "db1" false "fra" rfl (by decide) (by decide) (by decide)).2.1
    exCreateRes rfl rfl

/-- C8: destroy in any of its three modes leaves the local settings (and so
the name cache and database-settings map) untouched, its behaviour does not
depend on them, and the error of the one remote call it makes propagates to
the caller. -/
theorem destroy_frame :
    ∀ disk disk2 env name iflag rflag yes,
      (destroyCmd disk env name iflag rflag yes).disk = disk ∧
      (destroyCmd disk env name iflag rflag yes).result =
        (destroyCmd disk2 env name iflag rflag yes).result ∧
      (destroyCmd disk env name iflag rflag yes).trace =
        (destroyCmd disk2 env name iflag rflag yes).trace ∧
      (iflag ≠ "" →
        (destroyCmd disk env name iflag rflag yes).result =
          env.destroyInstanceResult) ∧
      (iflag = "" → rflag ≠ "" →
        (destroyCmd disk env name iflag rflag yes).result =
          env.destroyRegionResult) ∧
      (iflag = "" → rflag = "" → yes = true →
        (destroyCmd disk env name iflag rflag yes).result =
          env.destroyDatabaseResult) ∧
      (iflag = "" → rflag = "" → yes = false → env.promptResult = .ok true →
        (destroyCmd disk env name iflag rflag yes).result =
          env.destroyDatabaseResult) ∧
      (iflag = "" → rflag = "" → yes = false → env.promptResult = .ok false →
        (destroyCmd disk env name iflag rflag yes).result = .ok ()) := by
  intro disk disk2 env name iflag rflag yes
  by_cases hi : iflag = "" <;> by_cases hr : rflag = "" <;> cases yes <;>
    rcases hp : env.promptResult with _ | b <;> (try cases b) <;>
    simp [destroyCmd, hi, hr, hp]

/-- C8 witness: a concrete instance destruction whose remote call fails. -/
theorem destroy_frame_wit :
    (destroyCmd exDisk ⟨.error .remoteDestroyFailed, .ok (), .ok (), .ok true⟩
      "db1" "i1" "" false).disk = exDisk ∧
    (destroyCmd exDisk ⟨.error .remoteDestroyFailed, .ok (), .ok (), .ok true⟩
      "db1" "i1" "" false).result = .error .remoteDestroyFailed :=
  have h := destroy_frame exDisk ⟨"x", some ["a"], []⟩
    ⟨.error .remoteDestroyFailed, .ok (), .ok (), .ok true⟩ "db1" "i1" "" false
  ⟨h.1, h.2.2.2.1 (by decide)⟩

/-- C2, counterexample to the claim as stated: on a cache miss with a failed
listing, `getDatabaseNames` stores the empty list in the cache, a value that
no successful listing produced. -/
theorem nameCache_stores_failed_listing :
    (getDatabaseNames ⟨"tok", none, []⟩ true (.error ())).2.dbNamesCache =
      some [] := rfl

/-- C2, amended: the cache is either served as stored or refilled on a miss
with whatever the listing produced — exactly the primary names on a
successful listing, but the empty list when the listing failed; successful
create and replicate invocations always leave the cache cleared. -/
theorem nameCache_maintenance :
    (∀ disk names lr, disk.dbNamesCache = some names →
      getDatabaseNames disk true lr = (names, disk)) ∧
    (∀ disk dbs, disk.dbNamesCache = none →
      getDatabaseNames disk true (.ok dbs) =
        (extractDatabaseNames dbs,
          disk.SetDbNamesCache (extractDatabaseNames dbs))) ∧
    (∀ disk, disk.dbNamesCache = none →
      getDatabaseNames disk true (.error ()) = ([], disk.SetDbNamesCache [])) ∧
    (∀ disk env nameArg canary region,
      (createCmd disk env nameArg canary region).result = .ok () →
      (createCmd disk env nameArg canary region).disk.dbNamesCache = none) ∧
    (∀ disk env name region canary,
      (replicateCmd disk env name region canary).result = .ok () →
      (replicateCmd disk env name region canary).disk.dbNamesCache = none) := by
  refine ⟨fun disk names lr h => ?_, fun disk dbs h => ?_, fun disk h => ?_,
    fun disk env nameArg canary region h => ?_,
    fun disk env name region canary h => ?_⟩
  · simp [getDatabaseNames, Settings.GetDbNamesCache, h]
  · simp [getDatabaseNames, Settings.GetDbNamesCache, h, fetchDatabaseNames]
  · simp [getDatabaseNames, Settings.GetDbNamesCache, h, fetchDatabaseNames]
  · rcases createCmd_ok_disk disk env nameArg canary region with hno | hd
    · exact absurd h hno
    · exact hd
  · rcases replicateCmd_ok_disk disk env name region canary with hno | hd
    · exact absurd h hno
    · exact hd

/-- C2 witness: a cache hit, a miss refilled from a successful listing, and
the cache cleared by a successful create and a successful replicate. -/
theorem nameCache_maintenance_wit :
    getDatabaseNames ⟨"tok", some ["a"], []⟩ true (.error ()) =
      (["a"], ⟨"tok", some ["a"], []⟩) ∧
    getDatabaseNames ⟨"tok", none, []⟩ true (.ok [exPrimaryDb]) =
      (["db1"], Settings.SetDbNamesCache ⟨"tok", none, []⟩ ["db1"]) ∧
    (createCmd exDisk (exCreateEnv (.ok exCreateRes) (.ok ()))
      (some "db1") false "fra").disk.dbNamesCache = none ∧
    (replicateCmd exDisk
      (exReplicateEnv [exLogicalDb] ⟨200, .ok (.json exGoodLogicalBody)⟩)
      "db1" "fra" false).disk.dbNamesCache = none :=
  ⟨nameCache_maintenance.1 ⟨"tok", some ["a"], []⟩ ["a"] (.error ()) rfl,
    nameCache_maintenance.2.1 ⟨"tok", none, []⟩ [exPrimaryDb] rfl,
    nameCache_maintenance.2.2.2.1 exDisk (exCreateEnv (.ok exCreateRes) (.ok ()))
      (some "db1") false "fra" rfl,
    nameCache_maintenance.2.2.2.2 exDisk
      (exReplicateEnv [exLogicalDb] ⟨200, .ok (.json exGoodLogicalBody)⟩)
      "db1" "fra" false rfl⟩

/-- C10: the replicate request body is plain textual interpolation with no
escaping — a password containing a double quote yields a body that is not
well-formed JSON at all, while for inputs free of double quotes and
backslashes the body is exactly the JSON object with the fields `name`,
`region`, `image`, `type` (`"replica"`) and `password`. -/
theorem request_body_interpolation :
    (cleanStr "a\"b" = false ∧
      parseFlatObj (replicateReqBody "db1" "ams" "latest" "a\"b") = none) ∧
    (∀ n r i p, cleanStr n = true → cleanStr r = true → cleanStr i = true →
      cleanStr p = true →
      parseFlatObj (replicateReqBody n r i p) =
        some [("name", n), ("region", r), ("image", i),
          ("type", "replica"), ("password", p)]) :=
  ⟨⟨rfl, rfl⟩, reqBody_wellFormed⟩

/-- C10 witness: the universal clause applied at concrete clean inputs. -/
theorem request_body_interpolation_wit :
    cleanStr "db1" = true ∧ cleanStr "ams" = true ∧
    cleanStr "latest" = true ∧ cleanStr "pw" = true ∧
    parseFlatObj (replicateReqBody "db1" "ams" "latest" "pw") =
      some [("name", "db1"), ("region", "ams"), ("image", "latest"),
        ("type", "replica"), ("password", "pw")] :=
  ⟨by decide, by decide, by decide, by decide,
    request_body_interpolation.2 "db1" "ams" "latest" "pw"
      (by decide) (by decide) (by decide) (by decide)⟩

end TursoCli
